import Mathlib

/-!
Verification of the scheduling, idempotency and authorization core of the
lark-skygpt bot backend.  The definitions below are a shallow embedding of
`app/crud.py`, `app/tasks.py`, `app/main.py` and `scheduler_worker.py`:
pure fragments become Lean functions, the database tables and the Redis
cache become explicit state values, and each concurrent race is studied as
a serialized history of its atomic commit points.
-/

set_option maxRecDepth 8000

namespace LarkSkyGPT

/-! ## Summary execution lock (`app/crud.py` lines 110-122, table `summary_lock`) -/

/-- A summary-lock key: `(summary_date, chat_id)`, the composite primary key
of the `summary_lock` table (`app/database.py`, `UniqueConstraint`). -/
abbrev LockKey := String × String

/-- The `summary_lock` table contents.  Rows are never updated and never
deleted, only inserted. -/
abbrev LockDB := List LockKey

/-- One call of `acquire_summary_lock` (crud.py 110-122), serialized at its
commit point.  `snap` is the table as seen by the initial `SELECT` (a state
no newer than the commit-time table `db`; rows are never deleted, so
`snap ⊆ db`).  If the select sees the row the call returns `False` without
inserting; otherwise the `INSERT`+`COMMIT` is atomic against `db`: it fails
(unique-constraint violation, caught, rollback, `False`) when the row
meanwhile exists, and succeeds (`True`) when it does not. -/
def acquire_summary_lock (snap db : LockDB) (key : LockKey) : Bool × LockDB :=
  if key ∈ snap then (false, db)
  else if key ∈ db then (false, db)
  else (true, key :: db)

/-- The inputs of one `_summarize_chat_once_with_lock` invocation
(scheduler_worker.py 49-69): whether the lock acquisition raised inside the
database layer (`selectFails`, e.g. the `SELECT` failing with the DB
unreachable, which is not caught inside `acquire_summary_lock`), and the
snapshot its select read when it did not raise. -/
structure LockedStep where
  selectFails : Bool
  snap : LockDB
deriving Repr, DecidableEq

/-- The observable outcome of one `_summarize_chat_once_with_lock`
invocation: the boolean the lock call returned (`none` when it raised),
whether the invocation went on to run the summarization path
(`tasks.summarize_for_single_chat`), and the lock table afterwards. -/
structure LockedOutcome where
  acquired : Option Bool
  summarized : Bool
  db : LockDB
deriving Repr, DecidableEq

/-- `_summarize_chat_once_with_lock` (scheduler_worker.py 49-69).  When the
lock acquisition raises, the code logs a warning and sets `got = True`
("降級：不中斷"), i.e. it proceeds to summarize without holding the lock and
without inserting a row.  When the acquisition returns `False` the
invocation only logs at info level and stops: no retry, no alert, no
message sent. -/
def summarize_chat_once_with_lock (db : LockDB) (key : LockKey) (s : LockedStep) :
    LockedOutcome :=
  if s.selectFails then { acquired := none, summarized := true, db := db }
  else
    let r := acquire_summary_lock s.snap db key
    { acquired := some r.1, summarized := r.1, db := r.2 }

/-- A serialized history of lock-guarded invocations racing on one key
(hourly-scan ticks and daily-fallback passes of any number of worker
processes); the lock table is threaded through the commit points. -/
def runLocked (db : LockDB) (key : LockKey) : List LockedStep → List LockedOutcome
  | [] => []
  | s :: ss =>
    let o := summarize_chat_once_with_lock db key s
    o :: runLocked o.db key ss

/-- Number of invocations whose lock call returned `True`. -/
def countTrueAcquires (os : List LockedOutcome) : Nat :=
  os.countP (fun o => o.acquired == some true)

/-- Number of invocations that ran the summarization path. -/
def countSummaries (os : List LockedOutcome) : Nat :=
  os.countP (fun o => o.summarized)

/-- Number of invocations that ran the summarization path although their
lock acquisition completed without raising. -/
def countCleanSummaries (os : List LockedOutcome) : Nat :=
  os.countP (fun o => o.acquired.isSome && o.summarized)

/-- Modelled from the spec: `tryAcquire` as "a single atomic insert attempt
against a uniqueness constraint on (conversationId, dateKey); `true` iff
the insert succeeded, `false` iff a row already existed" (spec section 4.3).
Used only as the reference point of the refinement claim C3. -/
def tryAcquire (db : LockDB) (key : LockKey) : Bool × LockDB :=
  if key ∈ db then (false, db) else (true, key :: db)

/-- `_summarize_for_chat_in_range` (tasks.py 342-361) invokes the
summarization pipeline exactly when the stored message window is
non-empty (with an empty window it only sends a tip and skips the
pipeline).  `summarize_for_single_chat` (the `#summary once` path,
tasks.py 336-340) calls it on the conversation's yesterday window with no
lock consulted. -/
def summarize_pipeline_invoked (msgs : List String) : Bool :=
  !msgs.isEmpty

lemma summarize_chat_once_db_mono (db : LockDB) (key : LockKey) (s : LockedStep)
    (h : key ∈ db) :
    (summarize_chat_once_with_lock db key s).db = db ∧
    (summarize_chat_once_with_lock db key s).acquired ≠ some true ∧
    ((summarize_chat_once_with_lock db key s).acquired.isSome &&
      (summarize_chat_once_with_lock db key s).summarized) = false := by
  unfold summarize_chat_once_with_lock acquire_summary_lock
  by_cases hf : s.selectFails
  · simp [hf]
  · by_cases hs : key ∈ s.snap <;> simp [hf, hs, h]

lemma countTrueAcquires_of_mem (db : LockDB) (key : LockKey) (ss : List LockedStep)
    (h : key ∈ db) :
    countTrueAcquires (runLocked db key ss) = 0 ∧
    countCleanSummaries (runLocked db key ss) = 0 := by
  induction ss generalizing db with
  | nil => simp [runLocked, countTrueAcquires, countCleanSummaries]
  | cons s ss ih =>
    obtain ⟨hdb, hacq, hsum⟩ := summarize_chat_once_db_mono db key s h
    have ih2 := ih (summarize_chat_once_with_lock db key s).db (hdb.symm ▸ h)
    simp only [runLocked, countTrueAcquires, countCleanSummaries, List.countP_cons] at *
    constructor
    · have : ((summarize_chat_once_with_lock db key s).acquired == some true) = false := by
        cases hv : (summarize_chat_once_with_lock db key s).acquired with
        | none => rfl
        | some b =>
          cases b with
          | false => rfl
          | true => exact absurd hv hacq
      simp [this, ih2.1]
    · simp [hsum, ih2.2]

/-- Claim C1 (amended).  For every (conversation, calendar-day) key and
every serialized history of lock-guarded scheduler invocations (hourly
scans, daily fallback passes, of any number of racing workers, with
arbitrary select snapshots): at most one `acquire_summary_lock` call
returns `True`, and at most one invocation whose lock acquisition did not
raise goes on to summarize.  (Invocations whose acquisition raised are
treated by the code as acquired and summarize anyway, and `#summary once`
manual triggers bypass the lock; see the counterexample.) -/
theorem summary_lock_at_most_once (db : LockDB) (key : LockKey) (ss : List LockedStep) :
    countTrueAcquires (runLocked db key ss) ≤ 1 ∧
    countCleanSummaries (runLocked db key ss) ≤ 1 := by
  induction ss generalizing db with
  | nil => simp [runLocked, countTrueAcquires, countCleanSummaries]
  | cons s ss ih =>
    simp only [runLocked, countTrueAcquires, countCleanSummaries, List.countP_cons]
    by_cases hf : s.selectFails
    · have ho : summarize_chat_once_with_lock db key s =
          { acquired := none, summarized := true, db := db } := by
        simp [summarize_chat_once_with_lock, hf]
      have := ih db
      simp only [countTrueAcquires, countCleanSummaries] at this
      simp [ho, this.1, this.2]
    · by_cases hs : key ∈ s.snap
      · have ho : summarize_chat_once_with_lock db key s =
            { acquired := some false, summarized := false, db := db } := by
          simp [summarize_chat_once_with_lock, acquire_summary_lock, hf, hs]
        have := ih db
        simp only [countTrueAcquires, countCleanSummaries] at this
        simp [ho, this.1, this.2]
      · by_cases hd : key ∈ db
        · have ho : summarize_chat_once_with_lock db key s =
              { acquired := some false, summarized := false, db := db } := by
            simp [summarize_chat_once_with_lock, acquire_summary_lock, hf, hs, hd]
          have := ih db
          simp only [countTrueAcquires, countCleanSummaries] at this
          simp [ho, this.1, this.2]
        · have ho : summarize_chat_once_with_lock db key s =
              { acquired := some true, summarized := true, db := key :: db } := by
            simp [summarize_chat_once_with_lock, acquire_summary_lock, hf, hs, hd]
          have hz := countTrueAcquires_of_mem (key :: db) key ss (List.mem_cons_self key db)
          simp only [countTrueAcquires, countCleanSummaries] at hz
          simp [ho, hz.1, hz.2]

/-- Claim C1, counterexample to the claim as stated.  Two scheduler
invocations whose lock acquisition raises both proceed to summarize the
same (conversation, day) pair (the code substitutes `got = True`), so two
summarization invocations complete while zero `tryAcquire` calls returned
`True`; moreover a lock-winning scheduler invocation together with a
`#summary once` manual trigger (which never consults the lock) also yields
two pipeline invocations for the pair. -/
theorem summary_lock_claim_cex :
    countSummaries (runLocked [] ("2025-08-20", "c1") [⟨true, []⟩, ⟨true, []⟩]) = 2 ∧
    countTrueAcquires (runLocked [] ("2025-08-20", "c1") [⟨true, []⟩, ⟨true, []⟩]) = 0 ∧
    (summarize_chat_once_with_lock [] ("2025-08-20", "c1") ⟨false, []⟩).summarized = true ∧
    summarize_pipeline_invoked ["morning standup notes"] = true := by
  decide

/-- Claim C3.  For every select snapshot that is a sub-state of the
commit-time table (which monotonicity of the lock table guarantees),
`acquire_summary_lock` has exactly the observable behaviour of the single
atomic insert attempt `tryAcquire`: it returns `True` iff the insert
succeeded (iff no row existed), `False` iff a row already existed; and a
failed acquisition makes the scheduler invocation stop silently: it does
not summarize, does not change the table, and sends nothing (no retry, no
alert). -/
theorem acquire_summary_lock_atomic (snap db : LockDB) (key : LockKey)
    (hsub : snap ⊆ db) :
    acquire_summary_lock snap db key = tryAcquire db key ∧
    ((acquire_summary_lock snap db key).1 = true ↔ key ∉ db) ∧
    (∀ s : LockedStep, s.selectFails = false →
      (summarize_chat_once_with_lock db key s).acquired = some false →
      (summarize_chat_once_with_lock db key s).summarized = false ∧
      (summarize_chat_once_with_lock db key s).db = db) := by
  refine ⟨?_, ?_, ?_⟩
  · unfold acquire_summary_lock tryAcquire
    by_cases hs : key ∈ snap
    · simp [hs, hsub hs]
    · simp [hs]
  · unfold acquire_summary_lock
    by_cases hs : key ∈ snap
    · simp [hs, hsub hs]
    · by_cases hd : key ∈ db <;> simp [hs, hd]
  · intro s hf hacq
    unfold summarize_chat_once_with_lock acquire_summary_lock at *
    by_cases hs : key ∈ s.snap
    · simp [hf, hs] at *
    · by_cases hd : key ∈ db
      · simp [hf, hs, hd] at *
      · simp [hf, hs, hd] at hacq

/-- Claim C3, witness: the hypothesis `snap ⊆ db` is satisfiable and the
theorem applies at a concrete table. -/
theorem acquire_summary_lock_atomic_witness :
    (([] : LockDB) ⊆ [("2025-08-20", "c1")]) ∧
    (acquire_summary_lock [] [("2025-08-20", "c1")] ("2025-08-20", "c1") =
        tryAcquire [("2025-08-20", "c1")] ("2025-08-20", "c1") ∧
      ((acquire_summary_lock [] [("2025-08-20", "c1")] ("2025-08-20", "c1")).1 = true ↔
        ("2025-08-20", "c1") ∉ [("2025-08-20", "c1")]) ∧
      (∀ s : LockedStep, s.selectFails = false →
        (summarize_chat_once_with_lock [("2025-08-20", "c1")] ("2025-08-20", "c1") s).acquired =
          some false →
        (summarize_chat_once_with_lock [("2025-08-20", "c1")] ("2025-08-20", "c1") s).summarized =
          false ∧
        (summarize_chat_once_with_lock [("2025-08-20", "c1")] ("2025-08-20", "c1") s).db =
          [("2025-08-20", "c1")])) :=
  ⟨List.nil_subset _,
    acquire_summary_lock_atomic [] [("2025-08-20", "c1")] ("2025-08-20", "c1")
      (List.nil_subset _)⟩

/-! ## Key-value store with expiry (the shared Redis cache) -/

/-- A Redis-like store: key to absolute expiry time.  A key is visible
exactly while `now < expiry`; an expired entry behaves as absent. -/
abbrev KVStore := List (String × Nat)

/-- Redis `get`-as-boolean: is `key` present and not expired at `now`. -/
def kvLive (st : KVStore) (key : String) (now : Nat) : Bool :=
  match st.find? (fun kv => kv.1 == key) with
  | some kv => decide (now < kv.2)
  | none => false

/-- Redis `set key ... ex ttl` net effect: bind `key` until `expiry`. -/
def kvSet (st : KVStore) (key : String) (expiry : Nat) : KVStore :=
  (key, expiry) :: st.filter (fun kv => kv.1 != key)

/-- Redis `delete key`. -/
def kvDel (st : KVStore) (key : String) : KVStore :=
  st.filter (fun kv => kv.1 != key)

/-- Redis `setnx key` followed by `expire key ttl` (the pair used by
`_dedupe_mark`): succeeds iff the key is not currently live, and then
binds it for `ttl` seconds. -/
def redisSetnx (st : KVStore) (key : String) (now ttl : Nat) : Bool × KVStore :=
  if kvLive st key now then (false, st)
  else (true, kvSet st key (now + ttl))

/-! ## Idempotency gate (`app/main.py` lines 111-140, `_dedupe_mark`) -/

/-- Retention window `_LOCAL_TTL = 24 * 3600` (main.py line 119), used both
as the Redis TTL and as the local-cache purge horizon. -/
def LOCAL_TTL : Nat := 24 * 3600

/-- The gate's state: the shared Redis store and the process-local
best-effort dictionary `_local_seen` (key to insertion time). -/
structure DedupeState where
  redis : KVStore := []
  localSeen : List (String × Nat) := []
deriving Repr, DecidableEq

/-- Observable outcome of one `_dedupe_mark` call.  `loggedDegraded`
records whether the call emitted any log message when it fell back to the
local cache: the source's `except Exception: pass` emits none, so the
embedding sets it to `false` on every path. -/
structure DedupeOutcome where
  result : Bool
  usedLocal : Bool
  loggedDegraded : Bool
  state : DedupeState
deriving Repr, DecidableEq

/-- `_dedupe_mark(message_id)` (main.py 121-140).  `redisOn` models
`_redis` being configured; `redisFails` models the Redis call raising for
this particular invocation, after which the code silently (`except
Exception: pass`) falls through to the process-local cache: purge entries
older than the retention window, answer `False` if the key is present,
otherwise record it and answer `True`. -/
def dedupe_mark (redisOn redisFails : Bool) (now : Nat) (st : DedupeState)
    (message_id : String) : DedupeOutcome :=
  let key := "lark:msg:" ++ message_id
  if redisOn && !redisFails then
    let r := redisSetnx st.redis key now LOCAL_TTL
    { result := r.1, usedLocal := false, loggedDegraded := false,
      state := { st with redis := r.2 } }
  else
    let purged := st.localSeen.filter (fun kv => !(decide (now - kv.2 > LOCAL_TTL)))
    if purged.any (fun kv => kv.1 == key) then
      { result := false, usedLocal := true, loggedDegraded := false,
        state := { st with localSeen := purged } }
    else
      { result := true, usedLocal := true, loggedDegraded := false,
        state := { st with localSeen := (key, now) :: purged } }

/-- One claim of the gate in a serialized history: the event identifier,
the wall-clock second, and whether the Redis call raised. -/
structure DedupeCall where
  message_id : String
  now : Nat
  redisFails : Bool
deriving Repr, DecidableEq

/-- Serialized history of `_dedupe_mark` calls; returns their results. -/
def runDedupe (redisOn : Bool) (st : DedupeState) : List DedupeCall → List Bool
  | [] => []
  | c :: cs =>
    let o := dedupe_mark redisOn c.redisFails c.now st c.message_id
    o.result :: runDedupe redisOn o.state cs

lemma runDedupe_redis_steady (id : String) (e : Nat) (ls : List (String × Nat))
    (rest : List DedupeCall)
    (hid : ∀ c ∈ rest, c.message_id = id)
    (hfail : ∀ c ∈ rest, c.redisFails = false)
    (hwin : ∀ c ∈ rest, c.now < e) :
    runDedupe true { redis := [("lark:msg:" ++ id, e)], localSeen := ls } rest =
      List.replicate rest.length false := by
  induction rest with
  | nil => rfl
  | cons c cs ih =>
    have h1 : c.message_id = id := hid c (List.mem_cons_self c cs)
    have h2 : c.redisFails = false := hfail c (List.mem_cons_self c cs)
    have h3 : c.now < e := hwin c (List.mem_cons_self c cs)
    have ih2 := ih (fun x hx => hid x (List.mem_cons_of_mem c hx))
      (fun x hx => hfail x (List.mem_cons_of_mem c hx))
      (fun x hx => hwin x (List.mem_cons_of_mem c hx))
    simp only [runDedupe, dedupe_mark, redisSetnx, kvLive, h1, h2, List.find?,
      beq_self_eq_true, List.length_cons, List.replicate_succ]
    simp [h3, ih2]

lemma runDedupe_local_steady (id : String) (t0 : Nat) (r0 : KVStore)
    (rest : List DedupeCall)
    (hid : ∀ c ∈ rest, c.message_id = id)
    (hwin : ∀ c ∈ rest, c.now < t0 + LOCAL_TTL) :
    runDedupe false { redis := r0, localSeen := [("lark:msg:" ++ id, t0)] } rest =
      List.replicate rest.length false := by
  induction rest with
  | nil => rfl
  | cons c cs ih =>
    have h1 : c.message_id = id := hid c (List.mem_cons_self c cs)
    have h3 : c.now < t0 + LOCAL_TTL := hwin c (List.mem_cons_self c cs)
    have hkeep : ¬ (c.now - t0 > LOCAL_TTL) := by omega
    have ih2 := ih (fun x hx => hid x (List.mem_cons_of_mem c hx))
      (fun x hx => hwin x (List.mem_cons_of_mem c hx))
    simp only [runDedupe, dedupe_mark, h1, Bool.false_and, List.length_cons,
      List.replicate_succ]
    simp [List.filter, hkeep, ih2]

/-- Claim C2 (amended).  Provided every claim of an identifier is served
by the same store — the shared cache configured and reachable for all of
them, or no shared cache and all claims inside one process-local cache —
the gate returns `true` on the first claim, `false` on every later claim
made while the marker is live, and exactly one of the N claims returns
`true`.  (A Redis failure between two claims switches stores and breaks
this; see the counterexample.) -/
theorem dedupe_gate_same_store (redisOn : Bool) (c0 : DedupeCall)
    (rest : List DedupeCall)
    (hmode : redisOn = false ∨
      (c0.redisFails = false ∧ ∀ c ∈ rest, c.redisFails = false))
    (hid : ∀ c ∈ rest, c.message_id = c0.message_id)
    (hwin : ∀ c ∈ rest, c.now < c0.now + LOCAL_TTL) :
    runDedupe redisOn {} (c0 :: rest) = true :: List.replicate rest.length false ∧
    (runDedupe redisOn {} (c0 :: rest)).count true = 1 := by
  have hmain : runDedupe redisOn {} (c0 :: rest) =
      true :: List.replicate rest.length false := by
    obtain hr | hr := Bool.eq_false_or_eq_true redisOn
    · subst hr
      rcases hmode with hoff | ⟨h0, hrest⟩
      · exact absurd hoff (by simp)
      · have hstep : dedupe_mark true c0.redisFails c0.now {} c0.message_id =
            { result := true, usedLocal := false, loggedDegraded := false,
              state := { redis := [("lark:msg:" ++ c0.message_id, c0.now + LOCAL_TTL)],
                         localSeen := [] } } := by
          simp [dedupe_mark, redisSetnx, kvLive, kvSet, h0]
        simp only [runDedupe]
        simp [hstep,
          runDedupe_redis_steady c0.message_id (c0.now + LOCAL_TTL) [] rest hid hrest hwin]
    · subst hr
      have hstep : dedupe_mark false c0.redisFails c0.now {} c0.message_id =
          { result := true, usedLocal := true, loggedDegraded := false,
            state := { redis := [],
                       localSeen := [("lark:msg:" ++ c0.message_id, c0.now)] } } := by
        simp [dedupe_mark]
      simp only [runDedupe]
      simp [hstep, runDedupe_local_steady c0.message_id c0.now [] rest hid hwin]
  refine ⟨hmain, ?_⟩
  rw [hmain]
  simp [List.count_cons, List.count_replicate]

/-- Claim C2, witness: the hypotheses are satisfiable and the theorem
applies to two reachable-Redis claims of `evt-42` seven seconds apart. -/
theorem dedupe_gate_same_store_witness :
    (∀ c ∈ ([⟨"evt-42", 7, false⟩] : List DedupeCall), c.message_id = "evt-42") ∧
    (∀ c ∈ ([⟨"evt-42", 7, false⟩] : List DedupeCall), c.now < 0 + LOCAL_TTL) ∧
    (runDedupe true {} [⟨"evt-42", 0, false⟩, ⟨"evt-42", 7, false⟩] =
        [true, false] ∧
      (runDedupe true {} [⟨"evt-42", 0, false⟩, ⟨"evt-42", 7, false⟩]).count true = 1) :=
  ⟨by decide, by decide, by
    simpa using dedupe_gate_same_store true ⟨"evt-42", 0, false⟩
      [⟨"evt-42", 7, false⟩] (Or.inr ⟨rfl, by decide⟩) (by decide) (by decide)⟩

/-- Claim C2, counterexample to the claim as stated.  With Redis
configured, a first claim of `evt-42` succeeds through Redis; one second
later a second claim of the same identifier hits a Redis failure, silently
falls back to the (empty) process-local cache, and also returns `true`:
two of two concurrent-window claims return `true` while the marker is
live. -/
theorem dedupe_gate_claim_cex :
    runDedupe true {} [⟨"evt-42", 0, false⟩, ⟨"evt-42", 1, true⟩] = [true, true] := by
  decide

/-- Claim C9.  At the failing input (Redis configured, the Redis call
raising during the claim), `_dedupe_mark` does degrade to the
process-local cache instead of failing the caller — but it emits no log
message whatsoever on that path (`except Exception: pass`), so the
degradation is silent, contradicting the required behaviour. -/
theorem dedupe_degradation_is_silent :
    (dedupe_mark true true 5 {} "evt-42").usedLocal = true ∧
    (dedupe_mark true true 5 {} "evt-42").result = true ∧
    (dedupe_mark true true 5 {} "evt-42").loggedDegraded = false := by
  decide

/-! ## Character-level helpers (Python string semantics) -/

/-- Python whitespace for `str.strip` / `str.split` / regex `\s`. -/
def wsChar (c : Char) : Bool :=
  c == ' ' || c == '\t' || c == '\n' || c == '\r' || c.toNat == 11 || c.toNat == 12

/-- `str.strip()` on a character list. -/
def trimChars (cs : List Char) : List Char :=
  ((cs.dropWhile wsChar).reverse.dropWhile wsChar).reverse

/-- `str.split(",")`: split at every comma, keeping empty pieces. -/
def splitCommaAux : List Char → List Char → List (List Char)
  | [], acc => [acc.reverse]
  | c :: cs, acc =>
    if c = ',' then acc.reverse :: splitCommaAux cs [] else splitCommaAux cs (c :: acc)

/-- Python truthiness of an optional string. -/
def truthyStr : Option String → Bool
  | none => false
  | some s => s != ""

/-! ## Schedule store (`app/crud.py` lines 9-65, table `chats`) -/

/-- Modelled from the spec: the `Chat` ORM row.  `crud.py` imports `Chat`
from `app.database`, but the class declaration itself is absent from the
repository snapshot; fields and defaults follow section 3 of the design
document — `enabled` defaults to true, `summaryHour` to 8, `language` to
`zh`, the timezone is unset (the fixed system default applies), and the
platform-assigned `chat_id` is the table's unique key. -/
structure Chat where
  chat_id : String
  name : Option String := none
  enabled : Bool := true
  summary_hour : Nat := 8
  tz : Option String := none
  lang : String := "zh"
  last_seen : Nat := 0
deriving Repr, DecidableEq

/-- The `chats` table contents. -/
abbrev ChatDB := List Chat

/-- `scalar_one_or_none` on `select(Chat).where(Chat.chat_id == id)`. -/
def findChat (db : ChatDB) (id : String) : Option Chat :=
  db.find? (fun r => r.chat_id == id)

/-- Mutating the selected row in place and committing. -/
def updateChat (db : ChatDB) (id : String) (f : Chat → Chat) : ChatDB :=
  db.map (fun r => if r.chat_id == id then f r else r)

/-- `upsert_chat` (crud.py 9-21): refresh `last_seen`, set the name only
when a truthy name is supplied, create the row if absent. -/
def upsert_chat (db : ChatDB) (id : String) (name : Option String) (now : Nat) : ChatDB :=
  match findChat db id with
  | some _ =>
    updateChat db id (fun r =>
      { (if truthyStr name then { r with name := name } else r) with last_seen := now })
  | none => db ++ [{ chat_id := id, name := name, last_seen := now }]

/-- `set_chat_enabled` (crud.py 23-33). -/
def set_chat_enabled (db : ChatDB) (id : String) (enabled : Bool) : ChatDB :=
  match findChat db id with
  | none => db ++ [{ chat_id := id, enabled := enabled }]
  | some _ => updateChat db id (fun r => { r with enabled := enabled })

/-- `if hour is not None: row.summary_hour = max(0, min(23, int(hour)))`. -/
def applyHour (hour : Option Int) (r : Chat) : Chat :=
  match hour with
  | some h => { r with summary_hour := (max 0 (min 23 h)).toNat }
  | none => r

/-- `if tz: row.tz = tz` (Python truthiness: `None` and `""` skip). -/
def applyTz (tzv : Option String) (r : Chat) : Chat :=
  match tzv with
  | some s => if s = "" then r else { r with tz := some s }
  | none => r

/-- `if lang: row.lang = lang`. -/
def applyLang (langv : Option String) (r : Chat) : Chat :=
  match langv with
  | some l => if l = "" then r else { r with lang := l }
  | none => r

/-- The field-wise updates of `set_chat_schedule`, in source order. -/
def applySched (hour : Option Int) (tzv langv : Option String) (r : Chat) : Chat :=
  applyLang langv (applyTz tzv (applyHour hour r))

/-- `set_chat_schedule` (crud.py 35-51): create-if-absent, then apply only
the provided fields. -/
def set_chat_schedule (db : ChatDB) (id : String) (hour : Option Int)
    (tzv langv : Option String) : ChatDB :=
  match findChat db id with
  | none => db ++ [applySched hour tzv langv { chat_id := id }]
  | some _ => updateChat db id (applySched hour tzv langv)

/-- The dictionary shape returned by `get_all_chats`. -/
structure ChatInfo where
  chat_id : String
  tz : Option String
  hour : Nat
  lang : String
  name : Option String
deriving Repr, DecidableEq

/-- The row-to-dictionary projection in `get_all_chats`. -/
def chatInfoOf (r : Chat) : ChatInfo :=
  { chat_id := r.chat_id, tz := r.tz, hour := r.summary_hour, lang := r.lang,
    name := r.name }

/-- The `SUMMARY_CHAT_IDS` environment fallback of `get_all_chats`
(crud.py 59-64): the stripped, comma-split, non-empty pieces. -/
def env_fallback_ids (env : String) : List String :=
  ((splitCommaAux (trimChars env.data) []).map (fun cs => String.mk (trimChars cs))).filter
    (fun s => s != "")

/-- `get_all_chats` (crud.py 53-65): the enabled rows; when none exist,
the environment fallback list with default timezone, hour and language. -/
def get_all_chats (db : ChatDB) (env : String) : List ChatInfo :=
  let out := (db.filter (fun r => r.enabled)).map chatInfoOf
  if out.isEmpty then
    (env_fallback_ids env).map (fun i =>
      { chat_id := i, tz := some "Asia/Taipei", hour := 8, lang := "zh", name := none })
  else out

/-! ## Scheduler scans (`scheduler_worker.py` lines 72-97) -/

/-- `tz = c.get("tz") or DEFAULT_TZ`. -/
def effTz (tzv : Option String) : String :=
  match tzv with
  | some s => if s = "" then "Asia/Taipei" else s
  | none => "Asia/Taipei"

/-- `hour = int(c.get("hour") or 8)`: a stored hour of 0 is falsy in
Python and is replaced by 8. -/
def effHour (h : Nat) : Nat := if h = 0 then 8 else h

/-- `_run_hourly_scan` (scheduler_worker.py 72-83): the chat ids for which
a lock attempt is made this tick, given the wall-clock hour of each zone
(`nowHour`): the enabled chats whose effective hour matches, with empty
ids dropped by the guard in `_summarize_chat_once_with_lock`. -/
def run_hourly_scan_lock_attempts (db : ChatDB) (env : String)
    (nowHour : String → Nat) : List String :=
  (((get_all_chats db env).filter
      (fun c => nowHour (effTz c.tz) == effHour c.hour)).map
    (fun c => c.chat_id)).filter (fun i => i != "")

/-- `_run_daily_fallback` (scheduler_worker.py 86-97): attempts the lock
for every chat the store returns, regardless of its configured hour. -/
def run_daily_fallback_lock_attempts (db : ChatDB) (env : String) : List String :=
  ((get_all_chats db env).map (fun c => c.chat_id)).filter (fun i => i != "")

/-- The schedule-store mutations reachable between two commands. -/
inductive ChatOp where
  | upsert (id : String) (name : Option String) (now : Nat)
  | setEnabled (id : String) (b : Bool)
  | setSchedule (id : String) (hour : Option Int) (tzv langv : Option String)
deriving Repr, DecidableEq

def applyOp (db : ChatDB) : ChatOp → ChatDB
  | .upsert id n t => upsert_chat db id n t
  | .setEnabled id b => set_chat_enabled db id b
  | .setSchedule id h t l => set_chat_schedule db id h t l

def applyOps (db : ChatDB) (ops : List ChatOp) : ChatDB := ops.foldl applyOp db

/-- Whether an operation is the `on` command for this conversation. -/
def turnsOn (id : String) : ChatOp → Bool
  | .setEnabled j true => j == id
  | _ => false

/-- The conversation has at least one row and every row of it is
disabled. -/
def disabledEverywhere (db : ChatDB) (id : String) : Prop :=
  (∃ r ∈ db, r.chat_id = id) ∧ ∀ r ∈ db, r.chat_id = id → r.enabled = false

@[simp] lemma applyHour_chat_id (h : Option Int) (r : Chat) :
    (applyHour h r).chat_id = r.chat_id := by cases h <;> rfl

@[simp] lemma applyHour_enabled (h : Option Int) (r : Chat) :
    (applyHour h r).enabled = r.enabled := by cases h <;> rfl

@[simp] lemma applyHour_name (h : Option Int) (r : Chat) :
    (applyHour h r).name = r.name := by cases h <;> rfl

@[simp] lemma applyHour_tz (h : Option Int) (r : Chat) :
    (applyHour h r).tz = r.tz := by cases h <;> rfl

@[simp] lemma applyHour_lang (h : Option Int) (r : Chat) :
    (applyHour h r).lang = r.lang := by cases h <;> rfl

@[simp] lemma applyTz_chat_id (t : Option String) (r : Chat) :
    (applyTz t r).chat_id = r.chat_id := by
  cases t with
  | none => rfl
  | some s => by_cases h : s = "" <;> simp [applyTz, h]

@[simp] lemma applyTz_enabled (t : Option String) (r : Chat) :
    (applyTz t r).enabled = r.enabled := by
  cases t with
  | none => rfl
  | some s => by_cases h : s = "" <;> simp [applyTz, h]

@[simp] lemma applyTz_name (t : Option String) (r : Chat) :
    (applyTz t r).name = r.name := by
  cases t with
  | none => rfl
  | some s => by_cases h : s = "" <;> simp [applyTz, h]

@[simp] lemma applyTz_summary_hour (t : Option String) (r : Chat) :
    (applyTz t r).summary_hour = r.summary_hour := by
  cases t with
  | none => rfl
  | some s => by_cases h : s = "" <;> simp [applyTz, h]

@[simp] lemma applyTz_lang (t : Option String) (r : Chat) :
    (applyTz t r).lang = r.lang := by
  cases t with
  | none => rfl
  | some s => by_cases h : s = "" <;> simp [applyTz, h]

@[simp] lemma applyLang_chat_id (l : Option String) (r : Chat) :
    (applyLang l r).chat_id = r.chat_id := by
  cases l with
  | none => rfl
  | some s => by_cases h : s = "" <;> simp [applyLang, h]

@[simp] lemma applyLang_enabled (l : Option String) (r : Chat) :
    (applyLang l r).enabled = r.enabled := by
  cases l with
  | none => rfl
  | some s => by_cases h : s = "" <;> simp [applyLang, h]

@[simp] lemma applyLang_name (l : Option String) (r : Chat) :
    (applyLang l r).name = r.name := by
  cases l with
  | none => rfl
  | some s => by_cases h : s = "" <;> simp [applyLang, h]

@[simp] lemma applyLang_summary_hour (l : Option String) (r : Chat) :
    (applyLang l r).summary_hour = r.summary_hour := by
  cases l with
  | none => rfl
  | some s => by_cases h : s = "" <;> simp [applyLang, h]

@[simp] lemma applyLang_tz (l : Option String) (r : Chat) :
    (applyLang l r).tz = r.tz := by
  cases l with
  | none => rfl
  | some s => by_cases h : s = "" <;> simp [applyLang, h]

@[simp] lemma applySched_chat_id (h : Option Int) (t l : Option String) (r : Chat) :
    (applySched h t l r).chat_id = r.chat_id := by simp [applySched]

@[simp] lemma applySched_enabled (h : Option Int) (t l : Option String) (r : Chat) :
    (applySched h t l r).enabled = r.enabled := by simp [applySched]

@[simp] lemma applySched_name (h : Option Int) (t l : Option String) (r : Chat) :
    (applySched h t l r).name = r.name := by simp [applySched]

lemma applySched_idem (h : Option Int) (t l : Option String) (r : Chat) :
    applySched h t l (applySched h t l r) = applySched h t l r := by
  cases h <;> cases t <;> cases l <;>
    simp only [applySched, applyHour, applyTz, applyLang] <;> split_ifs <;> rfl

@[simp] lemma applyHour_none (r : Chat) : applyHour none r = r := rfl

@[simp] lemma applyTz_none (r : Chat) : applyTz none r = r := rfl

@[simp] lemma applyLang_none (r : Chat) : applyLang none r = r := rfl

lemma applyHour_some (h : Int) (r : Chat) :
    applyHour (some h) r = { r with summary_hour := (max 0 (min 23 h)).toNat } := rfl

lemma applyTz_some_of_ne (s : String) (r : Chat) (h : s ≠ "") :
    applyTz (some s) r = { r with tz := some s } := by simp [applyTz, h]

lemma findChat_updateChat (db : ChatDB) (id : String) (f : Chat → Chat)
    (hf : ∀ r, (f r).chat_id = r.chat_id) :
    findChat (updateChat db id f) id = (findChat db id).map f := by
  induction db with
  | nil => rfl
  | cons r rs ih =>
    simp only [findChat, updateChat, List.map_cons] at ih ⊢
    by_cases h : (r.chat_id == id) = true
    · have h2 : ((f r).chat_id == id) = true := by rw [hf r]; exact h
      simp [List.find?, h, h2]
    · simp only [if_neg h, List.find?]
      rw [Bool.not_eq_true] at h
      simp only [h]
      exact ih

lemma findChat_append_left (db : ChatDB) (id : String) (x : Chat) (r : Chat)
    (h : findChat db id = some r) : findChat (db ++ [x]) id = some r := by
  rw [findChat, List.find?_append]
  rw [findChat] at h
  rw [h]
  rfl

lemma findChat_append_right (db : ChatDB) (id : String) (x : Chat)
    (h : findChat db id = none) (hx : (x.chat_id == id) = true) :
    findChat (db ++ [x]) id = some x := by
  rw [findChat, List.find?_append]
  rw [findChat] at h
  rw [h]
  simp [hx]

lemma updateChat_append (l1 l2 : ChatDB) (id : String) (f : Chat → Chat) :
    updateChat (l1 ++ l2) id f = updateChat l1 id f ++ updateChat l2 id f := by
  simp [updateChat]

lemma updateChat_of_none (db : ChatDB) (id : String) (f : Chat → Chat)
    (h : findChat db id = none) : updateChat db id f = db := by
  rw [findChat, List.find?_eq_none] at h
  have : ∀ r ∈ db, (if (r.chat_id == id) = true then f r else r) = r := by
    intro r hr
    rw [if_neg (h r hr)]
  calc updateChat db id f = db.map (fun r => r) := List.map_congr_left this
    _ = db := by simp

lemma updateChat_comp (db : ChatDB) (id : String) (f g : Chat → Chat)
    (hf : ∀ r, (f r).chat_id = r.chat_id) :
    updateChat (updateChat db id f) id g = updateChat db id (fun r => g (f r)) := by
  rw [updateChat, updateChat, List.map_map, updateChat]
  refine List.map_congr_left (fun r _ => ?_)
  by_cases h : (r.chat_id == id) = true
  · have h2 : ((f r).chat_id == id) = true := by rw [hf r]; exact h
    simp [Function.comp, h, h2]
  · simp [Function.comp, h]

lemma updateChat_congr (db : ChatDB) (id : String) (f g : Chat → Chat)
    (h : ∀ r, f r = g r) : updateChat db id f = updateChat db id g := by
  rw [updateChat, updateChat]
  exact List.map_congr_left (fun r _ => by by_cases hr : (r.chat_id == id) = true <;>
    simp [hr, h r])

lemma findChat_set_chat_schedule (db : ChatDB) (id : String) (h : Option Int)
    (t l : Option String) :
    findChat (set_chat_schedule db id h t l) id =
      some (applySched h t l ((findChat db id).getD { chat_id := id })) := by
  cases hfind : findChat db id with
  | none =>
    rw [set_chat_schedule, hfind]
    exact findChat_append_right db id _ hfind (by simp)
  | some r =>
    rw [set_chat_schedule, hfind]
    rw [findChat_updateChat db id _ (fun r => applySched_chat_id h t l r), hfind]
    rfl

lemma set_chat_schedule_idem (db : ChatDB) (id : String) (h : Option Int)
    (t l : Option String) :
    set_chat_schedule (set_chat_schedule db id h t l) id h t l =
      set_chat_schedule db id h t l := by
  cases hfind : findChat db id with
  | none =>
    have hone : findChat (set_chat_schedule db id h t l) id =
        some (applySched h t l { chat_id := id }) := by
      rw [findChat_set_chat_schedule, hfind]
      rfl
    rw [set_chat_schedule, hone]
    rw [set_chat_schedule, hfind]
    rw [updateChat_append, updateChat_of_none db id _ hfind]
    simp [updateChat, applySched_idem]
  | some r =>
    have hone : findChat (set_chat_schedule db id h t l) id =
        some (applySched h t l r) := by
      rw [findChat_set_chat_schedule, hfind]
      rfl
    rw [set_chat_schedule, hone]
    rw [set_chat_schedule, hfind]
    rw [updateChat_comp db id _ _ (fun r => applySched_chat_id h t l r)]
    exact updateChat_congr db id _ _ (fun r => applySched_idem h t l r)

/-- Claim C6.  Schedule mutations are idempotent upserts that apply only
the provided fields: repeating a `set_chat_schedule` call is a no-op, and
setting only the hour and then only the timezone leaves both set, with
the language, enabled flag and name untouched (no whole-row overwrite). -/
theorem set_chat_schedule_field_merge (db : ChatDB) (id : String) :
    (∀ (h : Option Int) (t l : Option String),
      set_chat_schedule (set_chat_schedule db id h t l) id h t l =
        set_chat_schedule db id h t l) ∧
    ∃ r : Chat,
      findChat (set_chat_schedule (set_chat_schedule db id (some 9) none none)
          id none (some "Asia/Tokyo") none) id = some r ∧
      r.summary_hour = 9 ∧ r.tz = some "Asia/Tokyo" ∧
      r.lang = ((findChat db id).getD { chat_id := id }).lang ∧
      r.enabled = ((findChat db id).getD { chat_id := id }).enabled ∧
      r.name = ((findChat db id).getD { chat_id := id }).name := by
  constructor
  · exact fun h t l => set_chat_schedule_idem db id h t l
  · have h1 := findChat_set_chat_schedule db id (some 9) none none
    have h2 := findChat_set_chat_schedule (set_chat_schedule db id (some 9) none none)
      id none (some "Asia/Tokyo") none
    rw [h1, Option.getD_some] at h2
    have hval : ((max 0 (min 23 (9 : Int))).toNat) = 9 := by decide
    have hcalc : applySched none (some "Asia/Tokyo") none
        (applySched (some 9) none none ((findChat db id).getD { chat_id := id })) =
        { ((findChat db id).getD { chat_id := id }) with
            summary_hour := 9, tz := some "Asia/Tokyo" } := by
      simp only [applySched, applyLang_none, applyTz_none, applyHour_none, applyHour_some]
      rw [applyTz_some_of_ne _ _ (by decide), hval]
    rw [hcalc] at h2
    exact ⟨_, h2, rfl, rfl, rfl, rfl, rfl⟩

lemma findChat_none_no_row (db : ChatDB) (j : String) (h : findChat db j = none) :
    ∀ r ∈ db, r.chat_id ≠ j := by
  rw [findChat, List.find?_eq_none] at h
  intro r hr
  simpa using h r hr

lemma disabled_updateChat (db : ChatDB) (id j : String) (f : Chat → Chat)
    (h : disabledEverywhere db id)
    (hf1 : ∀ r, (f r).chat_id = r.chat_id)
    (hf2 : ∀ r, r.chat_id = id → r.chat_id = j →
      (f r).enabled = false ∨ (f r).enabled = r.enabled) :
    disabledEverywhere (updateChat db j f) id := by
  constructor
  · obtain ⟨r, hr, hrid⟩ := h.1
    refine ⟨if (r.chat_id == j) = true then f r else r,
      List.mem_map.mpr ⟨r, hr, rfl⟩, ?_⟩
    by_cases hc : (r.chat_id == j) = true
    · rw [if_pos hc, hf1 r]
      exact hrid
    · rw [if_neg hc]
      exact hrid
  · intro y hy hyid
    obtain ⟨s, hs, rfl⟩ := List.mem_map.mp hy
    by_cases hc : (s.chat_id == j) = true
    · rw [if_pos hc] at hyid ⊢
      have hsid : s.chat_id = id := by rw [← hf1 s]; exact hyid
      have hsj : s.chat_id = j := by simpa using hc
      rcases hf2 s hsid hsj with h1 | h1
      · exact h1
      · rw [h1]
        exact h.2 s hs hsid
    · rw [if_neg hc] at hyid ⊢
      exact h.2 s hs hyid

lemma disabled_append (db : ChatDB) (id : String) (x : Chat)
    (h : disabledEverywhere db id) (hx : x.chat_id ≠ id) :
    disabledEverywhere (db ++ [x]) id := by
  constructor
  · obtain ⟨r, hr, hrid⟩ := h.1
    exact ⟨r, List.mem_append_left _ hr, hrid⟩
  · intro y hy hyid
    rcases List.mem_append.mp hy with hy | hy
    · exact h.2 y hy hyid
    · rw [List.mem_singleton] at hy
      subst hy
      exact absurd hyid hx

lemma set_chat_enabled_false_disables (db : ChatDB) (id : String) :
    disabledEverywhere (set_chat_enabled db id false) id := by
  cases hfind : findChat db id with
  | none =>
    simp only [set_chat_enabled, hfind]
    constructor
    · exact ⟨_, List.mem_append_right _ (List.mem_singleton.mpr rfl), rfl⟩
    · intro y hy hyid
      rcases List.mem_append.mp hy with hy | hy
      · exact absurd hyid (findChat_none_no_row db id hfind y hy)
      · rw [List.mem_singleton] at hy
        subst hy
        rfl
  | some r =>
    simp only [set_chat_enabled, hfind]
    constructor
    · have hfind2 : List.find? (fun x => x.chat_id == id) db = some r := hfind
      have hr : r ∈ db := List.mem_of_find?_eq_some hfind2
      have hpid : (r.chat_id == id) = true := by
        have := List.find?_some hfind2
        simpa using this
      refine ⟨{ r with enabled := false }, List.mem_map.mpr ⟨r, hr, by rw [if_pos hpid]⟩,
        by simpa using hpid⟩
    · intro y hy hyid
      obtain ⟨s, hs, rfl⟩ := List.mem_map.mp hy
      by_cases hc : (s.chat_id == id) = true
      · rw [if_pos hc]
      · rw [if_neg hc] at hyid ⊢
        exact absurd hyid (by simpa using hc)

lemma upsert_preserves_disabled (db : ChatDB) (id j : String) (n : Option String)
    (t : Nat) (h : disabledEverywhere db id) :
    disabledEverywhere (upsert_chat db j n t) id := by
  cases hfind : findChat db j with
  | some r =>
    simp only [upsert_chat, hfind]
    refine disabled_updateChat db id j _ h ?_ ?_
    · intro r
      by_cases hn : truthyStr n = true <;> simp [hn]
    · intro r _ _
      right
      by_cases hn : truthyStr n = true <;> simp [hn]
  | none =>
    simp only [upsert_chat, hfind]
    refine disabled_append db id _ h ?_
    intro hxid
    obtain ⟨r, hr, hrid⟩ := h.1
    exact findChat_none_no_row db j hfind r hr (by rw [hrid, ← hxid])

lemma setEnabled_preserves_disabled (db : ChatDB) (id j : String) (b : Bool)
    (h : disabledEverywhere db id)
    (hop : turnsOn id (ChatOp.setEnabled j b) = false) :
    disabledEverywhere (set_chat_enabled db j b) id := by
  by_cases hj : j = id
  · subst hj
    cases b with
    | false => exact set_chat_enabled_false_disables db j
    | true => simp [turnsOn] at hop
  · cases hfind : findChat db j with
    | none =>
      simp only [set_chat_enabled, hfind]
      exact disabled_append db id _ h (by intro hxid; exact hj hxid)
    | some r =>
      simp only [set_chat_enabled, hfind]
      refine disabled_updateChat db id j _ h (fun r => rfl) ?_
      intro r hid hjj
      exact absurd (hid ▸ hjj) (fun e => hj e.symm)

lemma setSchedule_preserves_disabled (db : ChatDB) (id j : String)
    (hh : Option Int) (t l : Option String) (h : disabledEverywhere db id) :
    disabledEverywhere (set_chat_schedule db j hh t l) id := by
  cases hfind : findChat db j with
  | none =>
    simp only [set_chat_schedule, hfind]
    refine disabled_append db id _ h ?_
    intro hxid
    rw [applySched_chat_id] at hxid
    obtain ⟨r, hr, hrid⟩ := h.1
    exact findChat_none_no_row db j hfind r hr (by rw [hrid, ← hxid])
  | some r =>
    simp only [set_chat_schedule, hfind]
    exact disabled_updateChat db id j _ h (fun r => applySched_chat_id hh t l r)
      (fun r _ _ => Or.inr (applySched_enabled hh t l r))

lemma applyOps_preserve_disabled (db : ChatDB) (id : String) (ops : List ChatOp)
    (h : disabledEverywhere db id) (hops : ∀ op ∈ ops, turnsOn id op = false) :
    disabledEverywhere (applyOps db ops) id := by
  induction ops generalizing db with
  | nil => exact h
  | cons op ops ih =>
    have hstep : disabledEverywhere (applyOp db op) id := by
      cases op with
      | upsert j n t => exact upsert_preserves_disabled db id j n t h
      | setEnabled j b =>
        exact setEnabled_preserves_disabled db id j b h (hops _ (List.mem_cons_self _ _))
      | setSchedule j hh t l => exact setSchedule_preserves_disabled db id j hh t l h
    exact ih (applyOp db op) hstep (fun x hx => hops x (List.mem_cons_of_mem _ hx))

lemma not_mem_get_all_chats (db : ChatDB) (id env : String)
    (h : ∀ r ∈ db, r.chat_id = id → r.enabled = false)
    (henv : id ∉ env_fallback_ids env) :
    id ∉ (get_all_chats db env).map (fun c => c.chat_id) := by
  intro hmem
  simp only [get_all_chats] at hmem
  by_cases hout : ((db.filter (fun r => r.enabled)).map chatInfoOf).isEmpty = true
  · rw [if_pos hout] at hmem
    rw [List.map_map] at hmem
    obtain ⟨i, hi, hieq⟩ := List.mem_map.mp hmem
    exact henv (by rwa [show (i : String) = id from hieq] at hi)
  · rw [if_neg hout] at hmem
    rw [List.map_map] at hmem
    obtain ⟨r, hr, hreq⟩ := List.mem_map.mp hmem
    obtain ⟨hrdb, hren⟩ := List.mem_filter.mp hr
    have : r.chat_id = id := hreq
    exact absurd (h r hrdb this) (by simp [hren])

/-- Claim C7 (amended).  After the `off` command disables a conversation,
and as long as no subsequent operation is the `on` command for it, the
conversation is absent from `get_all_chats` and both the hourly scan and
the daily fallback make zero lock attempts for it — provided the
`SUMMARY_CHAT_IDS` environment fallback does not name the conversation
(the fallback re-introduces it whenever no conversation is enabled; see
the counterexample).  A later `on` command re-enables the row. -/
theorem off_disables_scheduler (db : ChatDB) (id env : String) (ops : List ChatOp)
    (nowHour : String → Nat)
    (henv : id ∉ env_fallback_ids env)
    (hops : ∀ op ∈ ops, turnsOn id op = false) :
    id ∉ (get_all_chats (applyOps (set_chat_enabled db id false) ops) env).map
        (fun c => c.chat_id) ∧
    id ∉ run_hourly_scan_lock_attempts (applyOps (set_chat_enabled db id false) ops)
        env nowHour ∧
    id ∉ run_daily_fallback_lock_attempts
        (applyOps (set_chat_enabled db id false) ops) env ∧
    ∃ r : Chat,
      findChat (set_chat_enabled (applyOps (set_chat_enabled db id false) ops)
          id true) id = some r ∧ r.enabled = true := by
  have hdis := applyOps_preserve_disabled (set_chat_enabled db id false) id ops
    (set_chat_enabled_false_disables db id) hops
  have habsent := not_mem_get_all_chats _ id env hdis.2 henv
  refine ⟨habsent, ?_, ?_, ?_⟩
  · intro hmem
    apply habsent
    simp only [run_hourly_scan_lock_attempts] at hmem
    obtain ⟨hy, _⟩ := List.mem_filter.mp hmem
    obtain ⟨c, hc, hceq⟩ := List.mem_map.mp hy
    exact List.mem_map.mpr ⟨c, (List.mem_filter.mp hc).1, hceq⟩
  · intro hmem
    apply habsent
    simp only [run_daily_fallback_lock_attempts] at hmem
    exact (List.mem_filter.mp hmem).1
  · obtain ⟨r, hr, hrid⟩ := hdis.1
    have hsome : (findChat (applyOps (set_chat_enabled db id false) ops) id).isSome :=
      List.find?_isSome.mpr ⟨r, hr, by simp [hrid]⟩
    obtain ⟨r2, hr2⟩ := Option.isSome_iff_exists.mp hsome
    generalize hG : applyOps (set_chat_enabled db id false) ops = DB1 at hr2 ⊢
    simp only [set_chat_enabled, hr2]
    rw [findChat_updateChat DB1 id (fun r => { r with enabled := true }) (fun r => rfl),
      hr2]
    exact ⟨_, rfl, rfl⟩

/-- Claim C7, counterexample to the claim as stated.  With
`SUMMARY_CHAT_IDS=c1` and every conversation disabled, the `off` command
for `c1` does not keep it out of the store: `get_all_chats` re-introduces
it through the environment fallback and the daily fallback pass attempts a
lock for it. -/
theorem off_env_fallback_cex :
    "c1" ∈ (get_all_chats (set_chat_enabled [{ chat_id := "c1" }] "c1" false) "c1").map
        (fun c => c.chat_id) ∧
    "c1" ∈ run_daily_fallback_lock_attempts
        (set_chat_enabled [{ chat_id := "c1" }] "c1" false) "c1" := by
  decide

/-- Claim C7, witness: the hypotheses of the amended theorem hold for a
fresh store with an empty fallback list and no interleaved operations. -/
theorem off_disables_scheduler_witness :
    ("c1" ∉ env_fallback_ids "") ∧
    (∀ op ∈ ([] : List ChatOp), turnsOn "c1" op = false) ∧
    ("c1" ∉ (get_all_chats (applyOps (set_chat_enabled [] "c1" false) []) "").map
        (fun c => c.chat_id) ∧
     "c1" ∉ run_hourly_scan_lock_attempts (applyOps (set_chat_enabled [] "c1" false) [])
        "" (fun _ => 8) ∧
     "c1" ∉ run_daily_fallback_lock_attempts
        (applyOps (set_chat_enabled [] "c1" false) []) "" ∧
     ∃ r : Chat,
       findChat (set_chat_enabled (applyOps (set_chat_enabled [] "c1" false) [])
           "c1" true) "c1" = some r ∧ r.enabled = true) :=
  ⟨by decide, by simp,
    off_disables_scheduler [] "c1" "" [] (fun _ => 8) (by decide) (by simp)⟩

/-! ## Calendar dates (`datetime.date`, `strptime` with format `%Y-%m-%d`) -/

structure Date where
  y : Nat
  m : Nat
  d : Nat
deriving Repr, DecidableEq

def isLeap (y : Nat) : Bool :=
  (y % 4 == 0 && y % 100 != 0) || y % 400 == 0

def daysInMonth (y m : Nat) : Nat :=
  if m = 2 then (if isLeap y then 29 else 28)
  else if m = 4 || m = 6 || m = 9 || m = 11 then 30
  else 31

/-- `datetime.strptime(s, s2)` with the dash format succeeds exactly on
real calendar dates with year at least `datetime.MINYEAR = 1`. -/
def validDate (dt : Date) : Bool :=
  decide (1 ≤ dt.y) && decide (1 ≤ dt.m) && decide (dt.m ≤ 12) &&
    decide (1 ≤ dt.d) && decide (dt.d ≤ daysInMonth dt.y dt.m)

def daysBeforeMonth (y m : Nat) : Nat :=
  ((List.range (m - 1)).map (fun i => daysInMonth y (i + 1))).sum

/-- Proleptic-Gregorian day number, as in `datetime.date.toordinal`. -/
def dateOrdinal (dt : Date) : Nat :=
  let py := dt.y - 1
  365 * py + py / 4 - py / 100 + py / 400 + daysBeforeMonth dt.y dt.m + dt.d

/-- Python `date` comparison (lexicographic on year, month, day). -/
def dateLtB (a b : Date) : Bool :=
  decide (a.y < b.y) ||
    (a.y == b.y && (decide (a.m < b.m) || (a.m == b.m && decide (a.d < b.d))))

/-- `(d2 - d1).days` for dates with `d1 ≤ d2`. -/
def daysBetween (d1 d2 : Date) : Nat := dateOrdinal d2 - dateOrdinal d1

/-! ## The command regular expressions of `tasks.py`, character by
character (`re.search` semantics: try every start position from the left;
the fixed-width pieces make greedy matching exact) -/

def digitChar (c : Char) : Bool := decide ('0' ≤ c) && decide (c ≤ '9')

def digitVal (c : Char) : Nat := c.toNat - '0'.toNat

/-- Match exactly `n` digits, accumulating their value. -/
def matchDigits : Nat → Nat → List Char → Option (Nat × List Char)
  | 0, acc, cs => some (acc, cs)
  | n + 1, acc, c :: cs =>
    if digitChar c then matchDigits n (acc * 10 + digitVal c) cs else none
  | _ + 1, _, [] => none

/-- Match a dash-separated date group (4, 2 and 2 digits) here. -/
def matchDateAt (cs : List Char) : Option (Date × List Char) := do
  let (y, cs) ← matchDigits 4 0 cs
  match cs with
  | '-' :: cs =>
    let (m, cs) ← matchDigits 2 0 cs
    match cs with
    | '-' :: cs =>
      let (d, cs) ← matchDigits 2 0 cs
      pure (⟨y, m, d⟩, cs)
    | _ => none
  | _ => none

/-- Match the literal `lit` here. -/
def matchLit : List Char → List Char → Option (List Char)
  | [], cs => some cs
  | _ :: _, [] => none
  | l :: ls, c :: cs => if l == c then matchLit ls cs else none

/-- One-or-more whitespace, greedy. -/
def wsPlus : List Char → Option (List Char)
  | [] => none
  | c :: cs => if wsChar c then some (cs.dropWhile wsChar) else none

/-- The range pattern of `_parse_range` at this position: the word
`range`, whitespace, a date group, optional whitespace, `to` or a dash,
optional whitespace, a date group. -/
def matchRangeAt (cs : List Char) : Option (Date × Date) := do
  let cs ← matchLit "range".data cs
  let cs ← wsPlus cs
  let (d1, cs) ← matchDateAt cs
  let cs := cs.dropWhile wsChar
  let cs ← (matchLit "to".data cs) <|> (matchLit "-".data cs)
  let cs := cs.dropWhile wsChar
  let (d2, _) ← matchDateAt cs
  pure (d1, d2)

def searchRange : List Char → Option (Date × Date)
  | [] => none
  | c :: cs =>
    match matchRangeAt (c :: cs) with
    | some r => some r
    | none => searchRange cs

/-- `_parse_range` (tasks.py 107-121): regex search, `strptime` validation
(an invalid date raises and yields `None`), then reject end before
start. -/
def parse_range (cs : List Char) : Option (Date × Date) :=
  match searchRange cs with
  | none => none
  | some (d1, d2) =>
    if validDate d1 && validDate d2 then
      if dateLtB d2 d1 then none else some (d1, d2)
    else none

/-- One or two digits, greedy, as `int(group)`. -/
def matchOneTwoDigits : List Char → Option (Nat × List Char)
  | [] => none
  | c :: cs =>
    if digitChar c then
      match cs with
      | c2 :: cs2 =>
        if digitChar c2 then some (digitVal c * 10 + digitVal c2, cs2)
        else some (digitVal c, cs)
      | [] => some (digitVal c, [])
    else none

/-- The `at` pattern (tasks.py 307) at this position; the optional
minutes group does not affect the captured hour. -/
def matchAtCmd (cs : List Char) : Option Nat := do
  let cs ← matchLit "#summary".data cs
  let cs ← wsPlus cs
  let cs ← matchLit "at".data cs
  let cs ← wsPlus cs
  let (h, _) ← matchOneTwoDigits cs
  pure h

def searchAtCmd : List Char → Option Nat
  | [] => none
  | c :: cs =>
    match matchAtCmd (c :: cs) with
    | some h => some h
    | none => searchAtCmd cs

/-- A character of the timezone group (word characters, slash, dash, on
the lowered text). -/
def tzGroupChar (c : Char) : Bool :=
  c.isAlpha || digitChar c || c == '_' || c == '/' || c == '-'

/-- The `tz` pattern (tasks.py 315) at this position. -/
def matchTzCmd (cs : List Char) : Option String := do
  let cs ← matchLit "#summary".data cs
  let cs ← wsPlus cs
  let cs ← matchLit "tz".data cs
  let cs ← wsPlus cs
  let grp := cs.takeWhile tzGroupChar
  if grp.isEmpty then none else pure (String.mk grp)

def searchTzCmd : List Char → Option String
  | [] => none
  | c :: cs =>
    match matchTzCmd (c :: cs) with
    | some s => some s
    | none => searchTzCmd cs

/-- The `lang` pattern (tasks.py 323) at this position. -/
def matchLangCmd (cs : List Char) : Option String := do
  let cs ← matchLit "#summary".data cs
  let cs ← wsPlus cs
  let cs ← matchLit "lang".data cs
  let cs ← wsPlus cs
  if (matchLit "zh".data cs).isSome then pure "zh"
  else if (matchLit "en".data cs).isSome then pure "en"
  else none

def searchLangCmd : List Char → Option String
  | [] => none
  | c :: cs =>
    match matchLangCmd (c :: cs) with
    | some s => some s
    | none => searchLangCmd cs

/-! ## Text utilities used by the handler -/

/-- ASCII lowering, as `str.lower` acts on the command alphabet. -/
def lowerChar (c : Char) : Char :=
  if decide (65 ≤ c.toNat) && decide (c.toNat ≤ 90) then Char.ofNat (c.toNat + 32)
  else c

def lowerChars (cs : List Char) : List Char := cs.map lowerChar

/-- `str.startswith` on character lists. -/
def hasPrefixCL : List Char → List Char → Bool
  | [], _ => true
  | _ :: _, [] => false
  | p :: ps, c :: cs => p == c && hasPrefixCL ps cs

def notWsChar (c : Char) : Bool := !wsChar c

def countWordsAux : List Char → Bool → Nat
  | [], _ => 0
  | c :: cs, inWord =>
    if wsChar c then countWordsAux cs false
    else (if inWord then 0 else 1) + countWordsAux cs true

/-- `len(text.split())`. -/
def countWords (cs : List Char) : Nat := countWordsAux cs false

/-- The remainder after the first two whitespace-separated words, as
`text.split(None, 2)` produces it. -/
def split2Rest (cs : List Char) : List Char :=
  ((((cs.dropWhile wsChar).dropWhile notWsChar).dropWhile wsChar).dropWhile
    notWsChar).dropWhile wsChar

/-- The supplied login code (tasks.py 222): the third split piece,
stripped, when the text has at least three words, else empty. -/
def loginCode (text : List Char) : String :=
  if 3 ≤ countWords text then String.mk (trimChars (split2Rest text)) else ""

/-- Two-digit hour formatting for the `at` confirmation. -/
def pad2 (n : Nat) : String := if n < 10 then "0" ++ toString n else toString n

/-! ## Admin session store (`app/tasks.py` lines 63-94) -/

/-- The two Redis grant namespaces, `summary:admin:<open_id>` and
`summary:admin_chat:<chat_id>`, as two expiry stores. -/
structure AdminStore where
  user : KVStore := []
  chat : KVStore := []
deriving Repr, DecidableEq

/-- `SUMMARY_ADMIN_TTL_SEC` default: 6 hours. -/
def ADMIN_TTL : Nat := 21600

/-- The module-level configuration of `tasks.py`. -/
structure Globals where
  redisOn : Bool
  adminCode : String
  adminTTL : Nat := ADMIN_TTL
  maxRangeDays : Nat := 31
  envChatIds : String := ""
deriving Repr, DecidableEq

/-- `_set_admin` (tasks.py 64-67): silently a no-op without Redis or with
an empty key. -/
def set_admin (g : Globals) (now : Nat) (a : AdminStore) (open_id : String) :
    AdminStore :=
  if !g.redisOn || open_id == "" then a
  else { a with user := kvSet a.user open_id (now + g.adminTTL) }

/-- `_del_admin` (tasks.py 69-72). -/
def del_admin (g : Globals) (a : AdminStore) (open_id : String) : AdminStore :=
  if !g.redisOn || open_id == "" then a
  else { a with user := kvDel a.user open_id }

/-- `_set_admin_chat` (tasks.py 74-77). -/
def set_admin_chat (g : Globals) (now : Nat) (a : AdminStore) (chat_id : String) :
    AdminStore :=
  if !g.redisOn || chat_id == "" then a
  else { a with chat := kvSet a.chat chat_id (now + g.adminTTL) }

/-- `_del_admin_chat` (tasks.py 79-82). -/
def del_admin_chat (g : Globals) (a : AdminStore) (chat_id : String) : AdminStore :=
  if !g.redisOn || chat_id == "" then a
  else { a with chat := kvDel a.chat chat_id }

/-- `_is_admin_both` (tasks.py 84-94): without Redis nobody is admin;
otherwise a live user grant or a live chat grant suffices. -/
def is_admin_both (g : Globals) (now : Nat) (a : AdminStore)
    (open_id chat_id : String) : Bool :=
  if !g.redisOn then false
  else if open_id != "" && kvLive a.user open_id now then true
  else if chat_id != "" && kvLive a.chat chat_id now then true
  else false

/-! ## Command handling (`app/tasks.py` lines 177-332,
`maybe_handle_summary_command`) -/

/-- The inbound message fields the handler reads; empty strings model
missing values (Python falsiness). -/
structure Event where
  chat_id : String
  text : String
  sender_open_id : String
deriving Repr, DecidableEq

structure SysState where
  chats : ChatDB
  admin : AdminStore
deriving Repr, DecidableEq

/-- Observable effects of one `maybe_handle_summary_command` call: the
replies sent, the per-chat range-summarization invocations, the
`#summary once` (yesterday) invocations, the number of
`acquire_summary_lock` attempts (every command path makes zero), and the
stores afterwards. -/
structure CmdResult where
  replies : List String := []
  rangeSummaries : List (String × Date × Date) := []
  onceSummaries : List String := []
  lockAttempts : Nat := 0
  st : SysState
deriving Repr, DecidableEq

/-- `maybe_handle_summary_command` (tasks.py 177-332), branch for branch
in source order: the `#summary` prefix gate, login/logout (no database
touched), then the chat upsert, then range, all-range (admin check before
range parsing), once, off, on, and the `at`/`tz`/`lang` regex searches. -/
def maybe_handle_summary_command (g : Globals) (now : Nat) (ev : Event)
    (s : SysState) : CmdResult :=
  let text := trimChars ev.text.data
  let low := lowerChars text
  if ev.chat_id == "" || !hasPrefixCL "#summary".data low then
    { st := s }
  else if hasPrefixCL "#summary login".data low then
    let code := loginCode text
    if g.adminCode == "" then
      { replies := ["系统未设置 SUMMARY_ADMIN_CODE，无法登录。"], st := s }
    else if code != g.adminCode then
      { replies := ["口令错误。"], st := s }
    else if ev.sender_open_id != "" then
      { replies := ["管理员登录成功（按用户，6小时）。"],
        st := { s with admin := set_admin g now s.admin ev.sender_open_id } }
    else
      { replies := ["管理员登录成功（按本群，6小时）。"],
        st := { s with admin := set_admin_chat g now s.admin ev.chat_id } }
  else if hasPrefixCL "#summary logout".data low then
    let a1 := if ev.sender_open_id != "" then del_admin g s.admin ev.sender_open_id
              else s.admin
    { replies := ["已登出管理员。"],
      st := { s with admin := del_admin_chat g a1 ev.chat_id } }
  else
    let s := { s with chats := upsert_chat s.chats ev.chat_id none now }
    if hasPrefixCL "#summary range".data low then
      match parse_range low with
      | none =>
        { replies := ["用法：#summary range YYYY-MM-DD to YYYY-MM-DD"], st := s }
      | some (d1, d2) =>
        if daysBetween d1 d2 + 1 > g.maxRangeDays then
          { replies := ["区间过大，最多 " ++ toString g.maxRangeDays ++ " 天。"],
            st := s }
        else
          { rangeSummaries := [(ev.chat_id, d1, d2)], st := s }
    else if hasPrefixCL "#summary all range".data low then
      if !is_admin_both g now s.admin ev.sender_open_id ev.chat_id then
        { replies := ["没有权限执行此指令，请先 #summary login <code>。"], st := s }
      else
        match parse_range low with
        | none =>
          { replies := ["用法：#summary all range YYYY-MM-DD to YYYY-MM-DD"],
            st := s }
        | some (d1, d2) =>
          if daysBetween d1 d2 + 1 > g.maxRangeDays then
            { replies := ["区间过大，最多 " ++ toString g.maxRangeDays ++ " 天。"],
              st := s }
          else
            let targets := (get_all_chats s.chats g.envChatIds).filter
              (fun c => c.chat_id != "")
            { rangeSummaries := targets.map (fun c => (c.chat_id, d1, d2)),
              replies := ["已对 " ++ toString targets.length ++ " 个群发送区间摘要。"],
              st := s }
    else if hasPrefixCL "#summary once".data low then
      { onceSummaries := [ev.chat_id], st := s }
    else if hasPrefixCL "#summary off".data low then
      { replies := ["已关闭本群每日摘要。"],
        st := { s with chats := set_chat_enabled s.chats ev.chat_id false } }
    else if hasPrefixCL "#summary on".data low then
      { replies := ["已开启本群每日摘要。"],
        st := { s with chats := set_chat_enabled s.chats ev.chat_id true } }
    else
      match searchAtCmd low with
      | some h0 =>
        let hour := max 0 (min 23 h0)
        { replies := ["已更新本群每日摘要时间为 " ++ pad2 hour ++ ":00。"],
          st := { s with chats :=
            (set_chat_schedule s.chats ev.chat_id (some (Int.ofNat hour)) none none) } }
      | none =>
        match searchTzCmd low with
        | some tzs =>
          { replies := ["已更新本群摘要时区为 " ++ tzs ++ "。"],
            st := { s with chats :=
              (set_chat_schedule s.chats ev.chat_id none (some tzs) none) } }
        | none =>
          match searchLangCmd low with
          | some ls =>
            { replies := ["已更新本群摘要语言为 " ++ ls ++ "。"],
              st := { s with chats :=
                (set_chat_schedule s.chats ev.chat_id none none (some ls)) } }
          | none => { st := s }

/-- The lowered, stripped text the handler dispatches on. -/
def cmdLow (ev : Event) : List Char := lowerChars (trimChars ev.text.data)

/-- The dispatch tests of `maybe_handle_summary_command`, in source
order: a text is recognized when any sub-verb prefix test or any of the
three regex searches succeeds. -/
def recognizedDispatch (low : List Char) : Bool :=
  hasPrefixCL "#summary login".data low || hasPrefixCL "#summary logout".data low ||
  hasPrefixCL "#summary range".data low ||
  hasPrefixCL "#summary all range".data low ||
  hasPrefixCL "#summary once".data low || hasPrefixCL "#summary off".data low ||
  hasPrefixCL "#summary on".data low || (searchAtCmd low).isSome ||
  (searchTzCmd low).isSome || (searchLangCmd low).isSome

lemma kvLive_kvSet_self (st : KVStore) (key : String) (e now : Nat) (h : now < e) :
    kvLive (kvSet st key e) key now = true := by
  simp [kvLive, kvSet, List.find?, h]

lemma is_admin_both_user_grant (g : Globals) (now : Nat) (a : AdminStore)
    (u c : String) (hr : g.redisOn = true) (hu : u ≠ "")
    (hl : kvLive a.user u now = true) :
    is_admin_both g now a u c = true := by
  have hu2 : (u != "") = true := by simp [bne, hu]
  simp [is_admin_both, hr, hu2, hl]

lemma is_admin_both_chat_grant (g : Globals) (now : Nat) (a : AdminStore)
    (u c : String) (hr : g.redisOn = true) (hc : c ≠ "")
    (hl : kvLive a.chat c now = true) :
    is_admin_both g now a u c = true := by
  have hc2 : (c != "") = true := by simp [bne, hc]
  by_cases h1 : (u != "" && kvLive a.user u now) = true <;>
    simp [is_admin_both, hr, h1, hc2, hl]

lemma is_admin_both_no_redis (g : Globals) (now : Nat) (a : AdminStore)
    (u c : String) (hr : g.redisOn = false) :
    is_admin_both g now a u c = false := by
  simp [is_admin_both, hr]

lemma mhsc_all_range_denied (g : Globals) (now : Nat) (ev : Event) (s : SysState)
    (rest : List Char)
    (hchat : (ev.chat_id == "") = false)
    (hlow : cmdLow ev = "#summary all range".data ++ rest)
    (hadmin : is_admin_both g now s.admin ev.sender_open_id ev.chat_id = false) :
    maybe_handle_summary_command g now ev s =
      { replies := ["没有权限执行此指令，请先 #summary login <code>。"],
        st := { s with chats := upsert_chat s.chats ev.chat_id none now } } := by
  have hl : lowerChars (trimChars ev.text.data) =
      "#summary all range".data ++ rest := hlow
  simp [maybe_handle_summary_command, hl, hasPrefixCL, hchat, hadmin]

lemma mhsc_all_range_proceeds (g : Globals) (now : Nat) (ev : Event) (s : SysState)
    (rest : List Char) (d1 d2 : Date)
    (hchat : (ev.chat_id == "") = false)
    (hlow : cmdLow ev = "#summary all range".data ++ rest)
    (hadmin : is_admin_both g now s.admin ev.sender_open_id ev.chat_id = true)
    (hparse : parse_range (cmdLow ev) = some (d1, d2))
    (hspan : daysBetween d1 d2 + 1 ≤ g.maxRangeDays) :
    maybe_handle_summary_command g now ev s =
      { rangeSummaries :=
          ((get_all_chats (upsert_chat s.chats ev.chat_id none now)
              g.envChatIds).filter (fun c => c.chat_id != "")).map
            (fun c => (c.chat_id, d1, d2)),
        replies := ["已对 " ++
          toString ((get_all_chats (upsert_chat s.chats ev.chat_id none now)
              g.envChatIds).filter (fun c => c.chat_id != "")).length ++
          " 个群发送区间摘要。"],
        st := { s with chats := upsert_chat s.chats ev.chat_id none now } } := by
  have hl : lowerChars (trimChars ev.text.data) =
      "#summary all range".data ++ rest := hlow
  have hp : parse_range (lowerChars (trimChars ev.text.data)) = some (d1, d2) :=
    hparse
  have hs : ¬ (daysBetween d1 d2 + 1 > g.maxRangeDays) := by omega
  rw [hl] at hp
  simp at hp
  simp [maybe_handle_summary_command, hl, hasPrefixCL, hchat, hadmin, hp, hs]

lemma mhsc_login_user (g : Globals) (now : Nat) (ev : Event) (s : SysState)
    (rest : List Char)
    (hchat : (ev.chat_id == "") = false)
    (hlow : cmdLow ev = "#summary login".data ++ rest)
    (hcfg : (g.adminCode == "") = false)
    (hmatch : loginCode (trimChars ev.text.data) = g.adminCode)
    (huser : (ev.sender_open_id == "") = false) :
    maybe_handle_summary_command g now ev s =
      { replies := ["管理员登录成功（按用户，6小时）。"],
        st := { s with admin := set_admin g now s.admin ev.sender_open_id } } := by
  have hl : lowerChars (trimChars ev.text.data) =
      "#summary login".data ++ rest := hlow
  have huser2 : ¬ ev.sender_open_id = "" := by simpa using huser
  simp [maybe_handle_summary_command, hl, hasPrefixCL, hchat, hcfg, hmatch, huser2]

lemma mhsc_login_chat (g : Globals) (now : Nat) (ev : Event) (s : SysState)
    (rest : List Char)
    (hchat : (ev.chat_id == "") = false)
    (hlow : cmdLow ev = "#summary login".data ++ rest)
    (hcfg : (g.adminCode == "") = false)
    (hmatch : loginCode (trimChars ev.text.data) = g.adminCode)
    (huser : ev.sender_open_id = "") :
    maybe_handle_summary_command g now ev s =
      { replies := ["管理员登录成功（按本群，6小时）。"],
        st := { s with admin := set_admin_chat g now s.admin ev.chat_id } } := by
  have hl : lowerChars (trimChars ev.text.data) =
      "#summary login".data ++ rest := hlow
  simp [maybe_handle_summary_command, hl, hasPrefixCL, hchat, hcfg, hmatch, huser]

lemma mhsc_range_usage (g : Globals) (now : Nat) (ev : Event) (s : SysState)
    (rest : List Char)
    (hchat : (ev.chat_id == "") = false)
    (hlow : cmdLow ev = "#summary range".data ++ rest)
    (hparse : parse_range (cmdLow ev) = none) :
    maybe_handle_summary_command g now ev s =
      { replies := ["用法：#summary range YYYY-MM-DD to YYYY-MM-DD"],
        st := { s with chats := upsert_chat s.chats ev.chat_id none now } } := by
  have hl : lowerChars (trimChars ev.text.data) = "#summary range".data ++ rest :=
    hlow
  have hp : parse_range (lowerChars (trimChars ev.text.data)) = none := hparse
  rw [hl] at hp
  simp at hp
  simp [maybe_handle_summary_command, hl, hasPrefixCL, hchat, hp]

lemma mhsc_range_too_big (g : Globals) (now : Nat) (ev : Event) (s : SysState)
    (rest : List Char) (d1 d2 : Date)
    (hchat : (ev.chat_id == "") = false)
    (hlow : cmdLow ev = "#summary range".data ++ rest)
    (hparse : parse_range (cmdLow ev) = some (d1, d2))
    (hspan : daysBetween d1 d2 + 1 > g.maxRangeDays) :
    maybe_handle_summary_command g now ev s =
      { replies := ["区间过大，最多 " ++ toString g.maxRangeDays ++ " 天。"],
        st := { s with chats := upsert_chat s.chats ev.chat_id none now } } := by
  have hl : lowerChars (trimChars ev.text.data) = "#summary range".data ++ rest :=
    hlow
  have hp : parse_range (lowerChars (trimChars ev.text.data)) = some (d1, d2) :=
    hparse
  rw [hl] at hp
  simp at hp
  simp [maybe_handle_summary_command, hl, hasPrefixCL, hchat, hp, hspan]

/-- Claim C4.  For an `all range` command: with no live grant under either
the sender's user key or the conversation's chat key the command is denied
with a user-visible message, performing zero lock attempts and zero
summarizations (the full result record shows only the denial reply and the
routine chat upsert); a live grant under either key alone makes
`_is_admin_both` report admin, and an admin command proceeds to the
per-chat range summaries; and a `login` with the correct code through
either channel (user key when a sender id is available, the chat key
otherwise) stores the grant under which the same command passes while the
grant is live. -/
theorem all_range_admin_gate (g : Globals) (now now2 : Nat) (ev : Event)
    (s : SysState) (rest : List Char)
    (hchat : ev.chat_id ≠ "")
    (hlow : cmdLow ev = "#summary all range".data ++ rest) :
    (is_admin_both g now s.admin ev.sender_open_id ev.chat_id = false →
      maybe_handle_summary_command g now ev s =
        { replies := ["没有权限执行此指令，请先 #summary login <code>。"],
          st := { s with chats := upsert_chat s.chats ev.chat_id none now } }) ∧
    (g.redisOn = true → ev.sender_open_id ≠ "" →
      kvLive s.admin.user ev.sender_open_id now = true →
      is_admin_both g now s.admin ev.sender_open_id ev.chat_id = true) ∧
    (g.redisOn = true → kvLive s.admin.chat ev.chat_id now = true →
      is_admin_both g now s.admin ev.sender_open_id ev.chat_id = true) ∧
    (is_admin_both g now s.admin ev.sender_open_id ev.chat_id = true →
      ∀ d1 d2, parse_range (cmdLow ev) = some (d1, d2) →
        daysBetween d1 d2 + 1 ≤ g.maxRangeDays →
        maybe_handle_summary_command g now ev s =
          { rangeSummaries :=
              ((get_all_chats (upsert_chat s.chats ev.chat_id none now)
                  g.envChatIds).filter (fun c => c.chat_id != "")).map
                (fun c => (c.chat_id, d1, d2)),
            replies := ["已对 " ++
              toString ((get_all_chats (upsert_chat s.chats ev.chat_id none now)
                  g.envChatIds).filter (fun c => c.chat_id != "")).length ++
              " 个群发送区间摘要。"],
            st := { s with chats := upsert_chat s.chats ev.chat_id none now } }) ∧
    (∀ (evL : Event) (restL : List Char) (now0 : Nat),
      g.redisOn = true → g.adminCode ≠ "" → evL.chat_id ≠ "" →
      cmdLow evL = "#summary login".data ++ restL →
      loginCode (trimChars evL.text.data) = g.adminCode →
      now2 < now0 + g.adminTTL →
      (evL.sender_open_id = ev.sender_open_id ∧ ev.sender_open_id ≠ "" ∨
        evL.sender_open_id = "" ∧ evL.chat_id = ev.chat_id) →
      is_admin_both g now2 (maybe_handle_summary_command g now0 evL s).st.admin
        ev.sender_open_id ev.chat_id = true) := by
  have hchat2 : (ev.chat_id == "") = false := beq_eq_false_iff_ne.mpr hchat
  refine ⟨?_, ?_, ?_, ?_, ?_⟩
  · intro hadmin
    exact mhsc_all_range_denied g now ev s rest hchat2 hlow hadmin
  · intro hr hu hl2
    exact is_admin_both_user_grant g now s.admin _ _ hr hu hl2
  · intro hr hl2
    exact is_admin_both_chat_grant g now s.admin _ _ hr hchat hl2
  · intro hadmin d1 d2 hp hs
    exact mhsc_all_range_proceeds g now ev s rest d1 d2 hchat2 hlow hadmin hp hs
  · intro evL restL now0 hr hcode hchatL hlowL hmatchL httl hch
    have hcfg : (g.adminCode == "") = false := beq_eq_false_iff_ne.mpr hcode
    have hchatL2 : (evL.chat_id == "") = false := beq_eq_false_iff_ne.mpr hchatL
    rcases hch with ⟨heq, hne⟩ | ⟨hempty, hsame⟩
    · have huserL : (evL.sender_open_id == "") = false := by
        rw [heq]
        exact beq_eq_false_iff_ne.mpr hne
      rw [mhsc_login_user g now0 evL s restL hchatL2 hlowL hcfg hmatchL huserL]
      show is_admin_both g now2 (set_admin g now0 s.admin evL.sender_open_id)
        ev.sender_open_id ev.chat_id = true
      have hsa : set_admin g now0 s.admin evL.sender_open_id =
          { s.admin with
            user := (kvSet s.admin.user evL.sender_open_id (now0 + g.adminTTL)) } := by
        simp [set_admin, hr, huserL]
      rw [hsa, heq]
      exact is_admin_both_user_grant g now2 _ _ _ hr hne
        (kvLive_kvSet_self _ _ _ _ httl)
    · rw [mhsc_login_chat g now0 evL s restL hchatL2 hlowL hcfg hmatchL hempty]
      show is_admin_both g now2 (set_admin_chat g now0 s.admin evL.chat_id)
        ev.sender_open_id ev.chat_id = true
      have hsa : set_admin_chat g now0 s.admin evL.chat_id =
          { s.admin with
            chat := (kvSet s.admin.chat evL.chat_id (now0 + g.adminTTL)) } := by
        simp [set_admin_chat, hr, hchatL2]
      rw [hsa, hsame]
      exact is_admin_both_chat_grant g now2 _ _ _ hr hchat
        (kvLive_kvSet_self _ _ _ _ httl)

/-- Claim C4, witness: the hypotheses are satisfiable — for a concrete
`all range` command from a subject with no session, the theorem yields the
denial with zero summarizations and only the routine upsert. -/
theorem all_range_admin_gate_witness :
    (("g1" : String) ≠ "") ∧
    (cmdLow ⟨"g1", "#summary all range 2025-08-01 to 2025-08-02", "u1"⟩ =
      "#summary all range".data ++ " 2025-08-01 to 2025-08-02".data) ∧
    (is_admin_both { redisOn := true, adminCode := "pw" } 0
        ({ chats := [], admin := {} } : SysState).admin "u1" "g1" = false) ∧
    maybe_handle_summary_command { redisOn := true, adminCode := "pw" } 0
        ⟨"g1", "#summary all range 2025-08-01 to 2025-08-02", "u1"⟩
        { chats := [], admin := {} } =
      { replies := ["没有权限执行此指令，请先 #summary login <code>。"],
        st := { chats := upsert_chat [] "g1" none 0, admin := {} } } :=
  ⟨by decide, by decide, by decide,
    (all_range_admin_gate { redisOn := true, adminCode := "pw" } 0 0
        ⟨"g1", "#summary all range 2025-08-01 to 2025-08-02", "u1"⟩
        { chats := [], admin := {} } (" 2025-08-01 to 2025-08-02".data)
        (by decide) (by decide)).1 (by decide)⟩

/-- Claim C5 (amended).  A `range` command whose end precedes its start is
rejected inside the parser (so it surfaces as the usage error), and a
parse failure or an inclusive span exceeding the configured maximum yields
only a user-facing error reply: no lock attempt, no summarization, no
admin-store change, and no schedule change — though the conversation row
is still upserted before dispatch, as for every `#summary` command that
reaches the database (see the counterexample); the request is never
truncated. -/
theorem range_command_rejection (g : Globals) (now : Nat) (ev : Event)
    (s : SysState) (rest : List Char)
    (hchat : ev.chat_id ≠ "")
    (hlow : cmdLow ev = "#summary range".data ++ rest) :
    (∀ (t : List Char) (d1 d2 : Date), searchRange t = some (d1, d2) →
      dateLtB d2 d1 = true → parse_range t = none) ∧
    (parse_range (cmdLow ev) = none →
      maybe_handle_summary_command g now ev s =
        { replies := ["用法：#summary range YYYY-MM-DD to YYYY-MM-DD"],
          st := { s with chats := upsert_chat s.chats ev.chat_id none now } }) ∧
    (∀ d1 d2, parse_range (cmdLow ev) = some (d1, d2) →
      daysBetween d1 d2 + 1 > g.maxRangeDays →
      maybe_handle_summary_command g now ev s =
        { replies := ["区间过大，最多 " ++ toString g.maxRangeDays ++ " 天。"],
          st := { s with chats := upsert_chat s.chats ev.chat_id none now } }) := by
  have hchat2 : (ev.chat_id == "") = false := beq_eq_false_iff_ne.mpr hchat
  refine ⟨?_, ?_, ?_⟩
  · intro t d1 d2 hs hlt
    simp only [parse_range, hs]
    by_cases hv : (validDate d1 && validDate d2) = true
    · simp [hv, hlt]
    · simp [hv]
  · intro hp
    exact mhsc_range_usage g now ev s rest hchat2 hlow hp
  · intro d1 d2 hp hspan
    exact mhsc_range_too_big g now ev s rest d1 d2 hchat2 hlow hp hspan

/-- Claim C5, witness: the hypotheses are satisfiable — the 365-day range
of the spec's example is parsed, exceeds the default 31-day maximum, and
the theorem yields the too-big rejection with no summarization. -/
theorem range_command_rejection_witness :
    (("g1" : String) ≠ "") ∧
    (cmdLow ⟨"g1", "#summary range 2025-01-01 to 2025-12-31", ""⟩ =
      "#summary range".data ++ " 2025-01-01 to 2025-12-31".data) ∧
    (parse_range (cmdLow ⟨"g1", "#summary range 2025-01-01 to 2025-12-31", ""⟩) =
      some (⟨2025, 1, 1⟩, ⟨2025, 12, 31⟩)) ∧
    (daysBetween ⟨2025, 1, 1⟩ ⟨2025, 12, 31⟩ + 1 > (31 : Nat)) ∧
    maybe_handle_summary_command { redisOn := false, adminCode := "" } 0
        ⟨"g1", "#summary range 2025-01-01 to 2025-12-31", ""⟩
        { chats := [], admin := {} } =
      { replies := ["区间过大，最多 31 天。"],
        st := { chats := upsert_chat [] "g1" none 0, admin := {} } } :=
  ⟨by decide, by decide, by decide, by decide, by
    have h := (range_command_rejection { redisOn := false, adminCode := "" } 0
        ⟨"g1", "#summary range 2025-01-01 to 2025-12-31", ""⟩
        { chats := [], admin := {} } (" 2025-01-01 to 2025-12-31".data)
        (by decide) (by decide)).2.2 ⟨2025, 1, 1⟩ ⟨2025, 12, 31⟩
        (by decide) (by decide)
    simpa using h⟩

/-- Claim C5, counterexample to the claim as stated.  The end-before-start
command `#summary range 2025-08-10 to 2025-08-01` is rejected with the
usage reply, makes no lock attempt and runs no summarization — but state
IS mutated: the handler's unconditional chat upsert creates the
conversation row (enabled by default) in a previously empty store. -/
theorem range_command_rejection_cex :
    (maybe_handle_summary_command { redisOn := false, adminCode := "" } 0
        ⟨"g1", "#summary range 2025-08-10 to 2025-08-01", ""⟩
        { chats := [], admin := {} }).replies =
      ["用法：#summary range YYYY-MM-DD to YYYY-MM-DD"] ∧
    (maybe_handle_summary_command { redisOn := false, adminCode := "" } 0
        ⟨"g1", "#summary range 2025-08-10 to 2025-08-01", ""⟩
        { chats := [], admin := {} }).rangeSummaries = [] ∧
    (maybe_handle_summary_command { redisOn := false, adminCode := "" } 0
        ⟨"g1", "#summary range 2025-08-10 to 2025-08-01", ""⟩
        { chats := [], admin := {} }).lockAttempts = 0 ∧
    (maybe_handle_summary_command { redisOn := false, adminCode := "" } 0
        ⟨"g1", "#summary range 2025-08-10 to 2025-08-01", ""⟩
        { chats := [], admin := {} }).st.chats =
      [{ chat_id := "g1", name := none, enabled := true, summary_hour := 8,
         tz := none, lang := "zh", last_seen := 0 }] := by
  decide

/-- Claim C8 (amended).  Text that does not begin with the reserved
`#summary` prefix (or arrives without a conversation id) yields no
command: no reply, no summarization, and the state is left exactly as it
was.  Text that begins with the prefix but matches none of the dispatch
patterns yields no command and no reply, but the conversation row is
still upserted before dispatch; and since sub-verbs are matched by
`startswith`, an unrecognized word extending a recognized verb is handled
as that verb (see the counterexample). -/
theorem unrecognized_subverb_yields_nothing (g : Globals) (now : Nat) (ev : Event)
    (s : SysState) :
    (hasPrefixCL "#summary".data (cmdLow ev) = false ∨ ev.chat_id = "" →
      maybe_handle_summary_command g now ev s = { st := s }) ∧
    (ev.chat_id ≠ "" → hasPrefixCL "#summary".data (cmdLow ev) = true →
      recognizedDispatch (cmdLow ev) = false →
      maybe_handle_summary_command g now ev s =
        { st := { s with chats := upsert_chat s.chats ev.chat_id none now } }) := by
  constructor
  · intro h
    rcases h with h | h
    · have h2 : hasPrefixCL "#summary".data (lowerChars (trimChars ev.text.data)) =
          false := h
      simp [maybe_handle_summary_command, h2]
    · simp [maybe_handle_summary_command, h]
  · intro hchat hpre hrec
    have hchat2 : (ev.chat_id == "") = false := beq_eq_false_iff_ne.mpr hchat
    have hpre2 : hasPrefixCL "#summary".data (lowerChars (trimChars ev.text.data)) =
        true := hpre
    simp only [recognizedDispatch, Bool.or_eq_false_iff] at hrec
    obtain ⟨⟨⟨⟨⟨⟨⟨⟨⟨hA, hB⟩, hC⟩, hD⟩, hE⟩, hF⟩, hG⟩, hH⟩, hI⟩, hJ⟩ := hrec
    have hA2 : hasPrefixCL "#summary login".data
        (lowerChars (trimChars ev.text.data)) = false := hA
    have hB2 : hasPrefixCL "#summary logout".data
        (lowerChars (trimChars ev.text.data)) = false := hB
    have hC2 : hasPrefixCL "#summary range".data
        (lowerChars (trimChars ev.text.data)) = false := hC
    have hD2 : hasPrefixCL "#summary all range".data
        (lowerChars (trimChars ev.text.data)) = false := hD
    have hE2 : hasPrefixCL "#summary once".data
        (lowerChars (trimChars ev.text.data)) = false := hE
    have hF2 : hasPrefixCL "#summary off".data
        (lowerChars (trimChars ev.text.data)) = false := hF
    have hG2 : hasPrefixCL "#summary on".data
        (lowerChars (trimChars ev.text.data)) = false := hG
    have hH2 : searchAtCmd (lowerChars (trimChars ev.text.data)) = none := by
      cases hx : searchAtCmd (lowerChars (trimChars ev.text.data)) with
      | none => rfl
      | some v =>
        have hx2 : searchAtCmd (cmdLow ev) = some v := hx
        rw [hx2] at hH
        simp at hH
    have hI2 : searchTzCmd (lowerChars (trimChars ev.text.data)) = none := by
      cases hx : searchTzCmd (lowerChars (trimChars ev.text.data)) with
      | none => rfl
      | some v =>
        have hx2 : searchTzCmd (cmdLow ev) = some v := hx
        rw [hx2] at hI
        simp at hI
    have hJ2 : searchLangCmd (lowerChars (trimChars ev.text.data)) = none := by
      cases hx : searchLangCmd (lowerChars (trimChars ev.text.data)) with
      | none => rfl
      | some v =>
        have hx2 : searchLangCmd (cmdLow ev) = some v := hx
        rw [hx2] at hJ
        simp at hJ
    simp [maybe_handle_summary_command, hchat2, hpre2, hA2, hB2, hC2, hD2, hE2,
      hF2, hG2, hH2, hI2, hJ2]

/-- Claim C8, witness: both parts of the theorem apply — ordinary text
(`hello there`) leaves the state untouched with no reply, and a
`#summary`-prefixed text with an unmatched sub-verb (`#summary zzz`)
produces no reply while the chat row is upserted. -/
theorem unrecognized_subverb_yields_nothing_witness :
    (hasPrefixCL "#summary".data
        (cmdLow ⟨"g1", "hello there", ""⟩) = false ∨ ("g1" : String) = "") ∧
    maybe_handle_summary_command { redisOn := false, adminCode := "" } 0
        ⟨"g1", "hello there", ""⟩ { chats := [], admin := {} } =
      { st := { chats := [], admin := {} } } ∧
    (("g1" : String) ≠ "") ∧
    (hasPrefixCL "#summary".data (cmdLow ⟨"g1", "#summary zzz", ""⟩) = true) ∧
    (recognizedDispatch (cmdLow ⟨"g1", "#summary zzz", ""⟩) = false) ∧
    maybe_handle_summary_command { redisOn := false, adminCode := "" } 0
        ⟨"g1", "#summary zzz", ""⟩ { chats := [], admin := {} } =
      { st := { chats := upsert_chat [] "g1" none 0, admin := {} } } :=
  ⟨Or.inl (by decide),
    (unrecognized_subverb_yields_nothing { redisOn := false, adminCode := "" } 0
        ⟨"g1", "hello there", ""⟩ { chats := [], admin := {} }).1
      (Or.inl (by decide)),
    by decide, by decide, by decide,
    (unrecognized_subverb_yields_nothing { redisOn := false, adminCode := "" } 0
        ⟨"g1", "#summary zzz", ""⟩ { chats := [], admin := {} }).2
      (by decide) (by decide) (by decide)⟩

/-- Claim C8, counterexample to the claim as stated.  `onboarding` is not
a recognized sub-verb, yet `#summary onboarding` is interpreted as the
`on` command (prefix dispatch) — it replies with the enable confirmation
and turns the conversation's daily summary on; and the unrecognized
`#summary zzz` in an empty store still mutates state by creating the
conversation row. -/
theorem unrecognized_subverb_cex :
    (maybe_handle_summary_command { redisOn := false, adminCode := "" } 0
        ⟨"g1", "#summary onboarding", ""⟩ { chats := [], admin := {} }).replies =
      ["已开启本群每日摘要。"] ∧
    findChat (maybe_handle_summary_command { redisOn := false, adminCode := "" } 0
        ⟨"g1", "#summary onboarding", ""⟩ { chats := [], admin := {} }).st.chats
        "g1" =
      some { chat_id := "g1", name := none, enabled := true, summary_hour := 8,
             tz := none, lang := "zh", last_seen := 0 } ∧
    (maybe_handle_summary_command { redisOn := false, adminCode := "" } 0
        ⟨"g1", "#summary zzz", ""⟩ { chats := [], admin := {} }).replies = [] ∧
    (maybe_handle_summary_command { redisOn := false, adminCode := "" } 0
        ⟨"g1", "#summary zzz", ""⟩ { chats := [], admin := {} }).st.chats ≠ [] := by
  decide

/-- Claim C10.  With no shared cache configured, a `login` with the
correct admin code still replies with the success message while storing
nothing (`_set_admin`/`_set_admin_chat` return early), `_is_admin_both`
answers false for every subject thereafter, and every subsequent
`all range` command is denied despite the reported successful login. -/
theorem login_without_shared_cache (g : Globals) (now : Nat) (ev : Event)
    (s : SysState) (rest : List Char)
    (hredis : g.redisOn = false)
    (hcode : g.adminCode ≠ "")
    (hchat : ev.chat_id ≠ "")
    (hlow : cmdLow ev = "#summary login".data ++ rest)
    (hmatch : loginCode (trimChars ev.text.data) = g.adminCode) :
    (ev.sender_open_id ≠ "" →
      maybe_handle_summary_command g now ev s =
        { replies := ["管理员登录成功（按用户，6小时）。"], st := s }) ∧
    (ev.sender_open_id = "" →
      maybe_handle_summary_command g now ev s =
        { replies := ["管理员登录成功（按本群，6小时）。"], st := s }) ∧
    (∀ (now2 : Nat) (a : AdminStore) (u c : String),
      is_admin_both g now2 a u c = false) ∧
    (∀ (ev2 : Event) (s2 : SysState) (now3 : Nat) (rest2 : List Char),
      ev2.chat_id ≠ "" → cmdLow ev2 = "#summary all range".data ++ rest2 →
      maybe_handle_summary_command g now3 ev2 s2 =
        { replies := ["没有权限执行此指令，请先 #summary login <code>。"],
          st := { s2 with chats := upsert_chat s2.chats ev2.chat_id none now3 } }) := by
  have hchat2 : (ev.chat_id == "") = false := beq_eq_false_iff_ne.mpr hchat
  have hcfg : (g.adminCode == "") = false := beq_eq_false_iff_ne.mpr hcode
  refine ⟨?_, ?_, ?_, ?_⟩
  · intro hu
    have hu2 : (ev.sender_open_id == "") = false := beq_eq_false_iff_ne.mpr hu
    rw [mhsc_login_user g now ev s rest hchat2 hlow hcfg hmatch hu2]
    have hsa : set_admin g now s.admin ev.sender_open_id = s.admin := by
      simp [set_admin, hredis]
    rw [hsa]
  · intro hu
    rw [mhsc_login_chat g now ev s rest hchat2 hlow hcfg hmatch hu]
    have hsa : set_admin_chat g now s.admin ev.chat_id = s.admin := by
      simp [set_admin_chat, hredis]
    rw [hsa]
  · intro now2 a u c
    exact is_admin_both_no_redis g now2 a u c hredis
  · intro ev2 s2 now3 rest2 hchat3 hlow3
    exact mhsc_all_range_denied g now3 ev2 s2 rest2
      (beq_eq_false_iff_ne.mpr hchat3) hlow3
      (is_admin_both_no_redis g now3 s2.admin ev2.sender_open_id ev2.chat_id hredis)

/-- Claim C10, witness: the hypotheses are satisfiable — with Redis absent
and the code configured as `pw`, `#summary login pw` from user `u1` in
chat `g1` reports the user-channel success while the state is unchanged,
and a following `all range` command is denied. -/
theorem login_without_shared_cache_witness :
    (({ redisOn := false, adminCode := "pw" } : Globals).redisOn = false) ∧
    (("pw" : String) ≠ "") ∧
    (("g1" : String) ≠ "") ∧
    (cmdLow ⟨"g1", "#summary login pw", "u1"⟩ =
      "#summary login".data ++ " pw".data) ∧
    (loginCode (trimChars ("#summary login pw".data)) = "pw") ∧
    maybe_handle_summary_command { redisOn := false, adminCode := "pw" } 0
        ⟨"g1", "#summary login pw", "u1"⟩ { chats := [], admin := {} } =
      { replies := ["管理员登录成功（按用户，6小时）。"],
        st := { chats := [], admin := {} } } :=
  ⟨rfl, by decide, by decide, by decide, by decide,
    (login_without_shared_cache { redisOn := false, adminCode := "pw" } 0
        ⟨"g1", "#summary login pw", "u1"⟩ { chats := [], admin := {} }
        (" pw".data) rfl (by decide) (by decide) (by decide) (by decide)).1
      (by decide)⟩

end LarkSkyGPT
